import Mathlib

/-!
# Verification of the meeting-summarizer backend (src/server.js)

A shallow embedding of the Express server in `src/server.js`: a model of
JavaScript runtime values (`JValue`) with JS truthiness, property access,
optional chaining and template stringification; the prompt builder
(`buildUserPrompt`), the LLM client (`callGroq`), the two route handlers
(`/api/summarize` and `/api/send-email`), and the configured rate limiter.
The network is modelled by passing the upstream HTTP response (resp. the
email provider result) as an explicit parameter; each handler result records
whether the outbound client was invoked.
-/

/-- A JavaScript runtime value, as far as the server manipulates them. -/
inductive JValue where
  | jnull
  | jundef
  | jbool (b : Bool)
  | jnum (n : Int)
  | jstr (s : String)
  | jarr (xs : List JValue)
  | jobj (fields : List (String × JValue))
  deriving Repr

namespace JValue

/-- JS truthiness: `false`, `0`, `""`, `null`, `undefined` are falsy. -/
def truthy : JValue → Bool
  | jnull => false
  | jundef => false
  | jbool b => b
  | jnum n => n != 0
  | jstr s => !s.isEmpty
  | jarr _ => true
  | jobj _ => true

/-- `null` and `undefined` (the values `?.` short-circuits on). -/
def nullish : JValue → Bool
  | jnull => true
  | jundef => true
  | _ => false

/-- JS `a || b`. -/
def jsOr (a b : JValue) : JValue := if a.truthy then a else b

/-- `String.prototype.trim`: strip leading and trailing whitespace. -/
def jsTrim (s : String) : String :=
  String.mk (((s.data.dropWhile Char.isWhitespace).reverse.dropWhile
    Char.isWhitespace).reverse)

/-- First-match field lookup in an object literal; absent fields read as
`undefined`. -/
def lookupField : List (String × JValue) → String → JValue
  | [], _ => jundef
  | (k, v) :: rest, key => if k = key then v else lookupField rest key

/-- Property access `v.k` on a non-nullish value: objects look the field up,
every other value yields `undefined` for the properties the server reads. -/
def getProp (v : JValue) (k : String) : JValue :=
  match v with
  | jobj fs => lookupField fs k
  | _ => jundef

end JValue

/-- A JS runtime exception, as caught by the handlers' `catch` blocks. -/
inductive JsError where
  /-- `new Error(msg)` thrown by `callGroq` on a non-ok response. -/
  | groqError (message : String)
  /-- `TypeError`: property access on `null`/`undefined`, or calling `.trim`
  on a non-string. -/
  | typeError
  deriving Repr

namespace JValue

/-- Plain (non-optional) member access `v.k`: throws `TypeError` when `v` is
nullish. -/
def getMember (v : JValue) (k : String) : Except JsError JValue :=
  if v.nullish then .error .typeError else .ok (v.getProp k)

/-- Index access `v[0]` on a non-nullish value. -/
def jsIndex0 (v : JValue) : JValue :=
  match v with
  | jarr xs => xs.getD 0 jundef
  | jobj fs => lookupField fs "0"
  | jstr s => if s.isEmpty then jundef else jstr (s.take 1)
  | _ => jundef

/-- Template-literal stringification `${v}`, element by element for arrays
(where `null`/`undefined` render as the empty string). -/
def templateStr : JValue → String
  | jnull => "null"
  | jundef => "undefined"
  | jbool b => if b then "true" else "false"
  | jnum n => toString n
  | jstr s => s
  | jobj _ => "[object Object]"
  | jarr xs => String.intercalate "," (xs.attach.map fun ⟨v, _⟩ =>
      match v with
      | jnull => ""
      | jundef => ""
      | w => templateStr w)

end JValue

open JValue

/-- `const GROQ_MODEL = process.env.GROQ_MODEL || 'llama-3.1-8b-instant'`
(line 16): the default model identifier. -/
def GROQ_MODEL_DEFAULT : String := "llama-3.1-8b-instant"

/-- `const SYSTEM_PROMPT = ...` (line 28). -/
def SYSTEM_PROMPT : String := "You are a precise meeting notes summarizer."

/-- `buildUserPrompt(transcript, extra)` (lines 30-33): the user message
text, with the transcript and `extra || ''` interpolated verbatim. -/
def buildUserPrompt (transcript extra : JValue) : String :=
  "Transcript:\n" ++ transcript.templateStr ++
    "\n\nAdditional instruction from user:\n" ++
    (jsOr extra (jstr "")).templateStr

/-- One chat message, `{role, content}`. -/
structure ChatMessage where
  role : String
  content : String
  deriving Repr

/-- The message list built by the summarize handler (lines 71-74). -/
def buildMessages (transcript extra : JValue) : List ChatMessage :=
  [⟨"system", SYSTEM_PROMPT⟩, ⟨"user", buildUserPrompt transcript extra⟩]

/-- The upstream HTTP response as seen by `callGroq` after `fetch` returns:
`ok`/`status`, the raw body text, and the body parsed as JSON. -/
structure UpstreamResponse where
  ok : Bool
  status : Nat
  text : String
  json : JValue
  deriving Repr

/-- The record `{content, promptTokens, completionTokens}` returned by
`callGroq` (line 60). Fields stay `JValue`: the JS code never coerces them. -/
structure LLMResult where
  content : JValue
  promptTokens : JValue
  completionTokens : JValue
  deriving Repr

/-- `data.choices?.[0]?.message?.content` (line 57): plain access to
`choices` (throws on nullish `data`), then an optional chain. -/
def contentChain (data : JValue) : Except JsError JValue :=
  match data.getMember "choices" with
  | .error e => .error e
  | .ok choices =>
    if choices.nullish then .ok jundef
    else
      let c0 := choices.jsIndex0
      if c0.nullish then .ok jundef
      else
        let m := c0.getProp "message"
        if m.nullish then .ok jundef
        else .ok (m.getProp "content")

/-- `data.usage?.<field>` (lines 58-59). -/
def usageChain (data : JValue) (field : String) : Except JsError JValue :=
  match data.getMember "usage" with
  | .error e => .error e
  | .ok usage => if usage.nullish then .ok jundef else .ok (usage.getProp field)

/-- `callGroq` (lines 35-61) applied to the response the network returns:
non-ok responses throw `Groq error <status>: <text>`; ok responses yield the
extracted content and usage counters with their `|| ''` / `|| 0` defaults. -/
def callGroq (resp : UpstreamResponse) : Except JsError LLMResult :=
  if resp.ok then
    match contentChain resp.json with
    | .error e => .error e
    | .ok c =>
      match usageChain resp.json "prompt_tokens" with
      | .error e => .error e
      | .ok p =>
        match usageChain resp.json "completion_tokens" with
        | .error e => .error e
        | .ok t => .ok ⟨jsOr c (jstr ""), jsOr p (jnum 0), jsOr t (jnum 0)⟩
  else
    .error (.groqError ("Groq error " ++ toString resp.status ++ ": " ++ resp.text))

/-- What a route handler sends back: HTTP status, JSON body, and whether the
outbound client (LLM resp. email provider) was invoked on the way. -/
structure RouteResult where
  status : Nat
  body : JValue
  upstreamCalled : Bool
  deriving Repr

/-- `res.status(s).json({error: msg})`. -/
def errorBody (msg : String) : JValue := jobj [("error", jstr msg)]

/-- The `POST /api/summarize` handler (lines 64-82). `reqBody` is `req.body`;
`upstream` is the HTTP response `fetch` would produce for the outbound call.
The `try/catch` maps every thrown error to `500 {error: 'Failed to
summarize'}`. -/
def summarizeHandler (model : String) (reqBody : JValue)
    (upstream : UpstreamResponse) : RouteResult :=
  let b := jsOr reqBody (jobj [])
  let transcript := b.getProp "transcript"
  if !transcript.truthy then
    ⟨400, errorBody "Transcript is required", false⟩
  else
    match transcript with
    | jstr s =>
      if (jsTrim s).data.isEmpty then
        ⟨400, errorBody "Transcript is required", false⟩
      else
        match callGroq upstream with
        | .error _ => ⟨500, errorBody "Failed to summarize", true⟩
        | .ok r =>
          ⟨200, jobj [("summary", r.content), ("model", jstr model),
            ("tokens", jobj [("prompt", r.promptTokens),
              ("completion", r.completionTokens)])], true⟩
    | _ =>
      -- `transcript.trim` is not a function: TypeError, caught by the handler
      ⟨500, errorBody "Failed to summarize", false⟩

/-- `out.data?.id` (line 110). -/
def providerId (out : JValue) : JValue :=
  let d := out.getProp "data"
  if d.nullish then jundef else d.getProp "id"

/-- The `POST /api/send-email` handler (lines 90-118). `configured` is
whether `RESEND_API_KEY` was set (so `resend` exists, lines 85-88); `out` is
the value the provider's `send` call would resolve to. -/
def sendEmailHandler (configured : Bool) (reqBody : JValue)
    (out : JValue) : RouteResult :=
  let b := jsOr reqBody (jobj [])
  let email := b.getProp "email"
  let summary := b.getProp "summary"
  if !email.truthy then
    ⟨400, errorBody "Recipient email required", false⟩
  else if !summary.truthy then
    ⟨400, errorBody "Summary content required", false⟩
  else
    match summary with
    | jstr s =>
      if (jsTrim s).data.isEmpty then
        ⟨400, errorBody "Summary content required", false⟩
      else if configured then
        match out.getMember "error" with
        | .error _ => ⟨500, errorBody "Failed to send email", true⟩
        | .ok e =>
          if e.truthy then
            -- `throw out.error`, caught by the handler's catch block
            ⟨500, errorBody "Failed to send email", true⟩
          else
            ⟨200, jobj [("ok", jbool true),
              ("id", jsOr (providerId out) (jstr "sent"))], true⟩
      else
        ⟨500, errorBody "Email service not configured", false⟩
    | _ =>
      -- `summary.trim` is not a function: TypeError, caught by the handler
      ⟨500, errorBody "Failed to send email", false⟩

/-- `rateLimit({ windowMs: 60 * 1000, max: 20 })` (line 24). -/
def rateLimitWindowMs : Nat := 60 * 1000

/-- Maximum hits per window configured on line 24. -/
def rateLimitMax : Nat := 20

/-- Outcome of the rate-limit middleware for one request. -/
inductive LimiterOutcome where
  /-- request forwarded to the route handler -/
  | pass
  /-- request answered HTTP 429, handler never reached -/
  | reject429
  deriving Repr

/-- Modelled from the spec: the `express-rate-limit` middleware itself is a
library dependency, not part of this repository. Per the spec's fixed-window
description, each request from a client key increments that key's counter
for the current window; the request passes to the handler iff the counter
(including this hit) does not exceed the configured maximum, otherwise it is
answered HTTP 429. -/
def limiterStep (count : Nat) : Nat × LimiterOutcome :=
  (count + 1, if count + 1 ≤ rateLimitMax then .pass else .reject429)

/-- Outcomes of `n` consecutive requests from one client key inside a single
window, starting from counter `count`. -/
def limiterRunFrom (count : Nat) : Nat → List LimiterOutcome
  | 0 => []
  | n + 1 =>
    let (c, o) := limiterStep count
    o :: limiterRunFrom c n

/-- Outcomes of `n` consecutive requests from one (fresh) client key inside a
single 60-second window. -/
def limiterRun (n : Nat) : List LimiterOutcome := limiterRunFrom 0 n

example : callGroq ⟨true, 200, "",
    jobj [("choices", jarr [jobj [("message", jobj [("content", jstr "X")])]]),
      ("usage", jobj [("prompt_tokens", jnum 10), ("completion_tokens", jnum 5)])]⟩
    = .ok ⟨jstr "X", jnum 10, jnum 5⟩ := by rfl

example : summarizeHandler "m" (jobj [("transcript", jstr "  ")])
    ⟨true, 200, "", jnull⟩ = ⟨400, errorBody "Transcript is required", false⟩ := by rfl

example : sendEmailHandler true (jobj [("email", jstr "a@b.com"), ("summary", jstr "hi")])
    (jobj [("data", jobj [("id", jstr "msg_1")])])
    = ⟨200, jobj [("ok", jbool true), ("id", jstr "msg_1")], true⟩ := by rfl

example : limiterRun 21 = (List.replicate 20 .pass) ++ [.reject429] := by rfl

/-! ## Helper lemmas -/

theorem isEmpty_false_of_ne_empty {s : String} (h : s ≠ "") :
    s.isEmpty = false := by
  by_contra hcon
  rw [Bool.not_eq_false] at hcon
  exact h ((String.isEmpty_iff s).mp hcon)

theorem data_isEmpty_false_of_ne_empty {s : String} (h : s ≠ "") :
    s.data.isEmpty = false := by
  rcases hl : s.data with _ | ⟨a, l⟩
  · exact absurd (String.ext hl) h
  · rfl

/-! ## Claim theorems -/

/-- C1: for every request to `POST /api/summarize` whose `transcript` field
is absent (reads as `undefined`), empty, or whitespace-only after trimming,
the handler responds HTTP 400 with an error field and the LLM client is
never invoked. -/
theorem summarize_blank_transcript_rejected
    (model : String) (reqBody : JValue) (upstream : UpstreamResponse)
    (h : (jsOr reqBody (jobj [])).getProp "transcript" = jundef
       ∨ ∃ s, (jsOr reqBody (jobj [])).getProp "transcript" = jstr s
            ∧ jsTrim s = "") :
    summarizeHandler model reqBody upstream
      = ⟨400, errorBody "Transcript is required", false⟩ := by
  simp only [summarizeHandler]
  rcases h with h | ⟨s, hs, ht⟩
  · rw [h]; rfl
  · rw [hs]
    by_cases he : s = ""
    · subst he; rfl
    · have hne : s.isEmpty = false := isEmpty_false_of_ne_empty he
      have htr : (jsTrim s).data.isEmpty = true := by
        rw [ht]; rfl
      simp only [JValue.truthy, hne, htr]
      simp

/-- Witness for C1 at the concrete whitespace-only transcript `"  "`. -/
theorem summarize_blank_transcript_rejected_witness :
    summarizeHandler "llama-3.1-8b-instant" (jobj [("transcript", jstr "  ")])
      ⟨true, 200, "", jnull⟩
      = ⟨400, errorBody "Transcript is required", false⟩ :=
  summarize_blank_transcript_rejected _ _ _
    (Or.inr ⟨"  ", rfl, by decide⟩)

/-- C2: for every request with a valid (non-blank after trim) transcript,
if `callGroq` succeeds with content `X` and usage counts `p` and `c`, the
handler responds HTTP 200 with exactly
`{summary: X, model: <configured model>, tokens: {prompt: p, completion: c}}`. -/
theorem summarize_success_response
    (model : String) (reqBody : JValue) (upstream : UpstreamResponse)
    (s : String) (X p c : JValue)
    (hts : (jsOr reqBody (jobj [])).getProp "transcript" = jstr s)
    (hnb : jsTrim s ≠ "")
    (hllm : callGroq upstream = .ok ⟨X, p, c⟩) :
    summarizeHandler model reqBody upstream
      = ⟨200, jobj [("summary", X), ("model", jstr model),
          ("tokens", jobj [("prompt", p), ("completion", c)])], true⟩ := by
  have he : s ≠ "" := by
    intro h; exact hnb (by rw [h]; rfl)
  have hne : s.isEmpty = false := isEmpty_false_of_ne_empty he
  have htr : (jsTrim s).data.isEmpty = false := data_isEmpty_false_of_ne_empty hnb
  simp only [summarizeHandler]
  rw [hts, hllm]
  simp only [JValue.truthy, hne, htr]
  simp

/-- Witness for C2: transcript `"hello"`, stubbed upstream success with
content `"X"` and usage 10/5. -/
theorem summarize_success_response_witness :
    summarizeHandler "llama-3.1-8b-instant" (jobj [("transcript", jstr "hello")])
      ⟨true, 200, "",
        jobj [("choices", jarr [jobj [("message", jobj [("content", jstr "X")])]]),
          ("usage", jobj [("prompt_tokens", jnum 10), ("completion_tokens", jnum 5)])]⟩
      = ⟨200, jobj [("summary", jstr "X"), ("model", jstr "llama-3.1-8b-instant"),
          ("tokens", jobj [("prompt", jnum 10), ("completion", jnum 5)])], true⟩ :=
  summarize_success_response _ _ _ "hello" (jstr "X") (jnum 10) (jnum 5)
    rfl (by decide) rfl

/-- C3: a non-2xx upstream response makes `callGroq` fail with an error
carrying the HTTP status and the raw body text, and the summarize handler
maps any `callGroq` failure to HTTP 500 with the fixed generic body
`{error: "Failed to summarize"}` — a constant, so the raw upstream body
never appears in the caller-visible response. -/
theorem upstream_error_translation :
    (∀ resp : UpstreamResponse, resp.ok = false →
      callGroq resp = .error (.groqError
        ("Groq error " ++ toString resp.status ++ ": " ++ resp.text)))
    ∧ (∀ (model : String) (reqBody : JValue) (upstream : UpstreamResponse)
        (e : JsError) (s : String),
        (jsOr reqBody (jobj [])).getProp "transcript" = jstr s →
        jsTrim s ≠ "" →
        callGroq upstream = .error e →
        summarizeHandler model reqBody upstream
          = ⟨500, errorBody "Failed to summarize", true⟩) := by
  constructor
  · intro resp h
    simp [callGroq, h]
  · intro model reqBody upstream e s hts hnb hllm
    have he : s ≠ "" := by
      intro h; exact hnb (by rw [h]; rfl)
    have hne : s.isEmpty = false := isEmpty_false_of_ne_empty he
    have htr : (jsTrim s).data.isEmpty = false := data_isEmpty_false_of_ne_empty hnb
    simp only [summarizeHandler]
    rw [hts, hllm]
    simp only [JValue.truthy, hne, htr]
    simp

/-- Witness for C3: a simulated HTTP 503 with body `"upstream detail"`. -/
theorem upstream_error_translation_witness :
    callGroq ⟨false, 503, "upstream detail", jnull⟩
      = .error (.groqError
          ("Groq error " ++ toString (503 : Nat) ++ ": " ++ "upstream detail"))
    ∧ summarizeHandler "llama-3.1-8b-instant" (jobj [("transcript", jstr "hi")])
        ⟨false, 503, "upstream detail", jnull⟩
      = ⟨500, errorBody "Failed to summarize", true⟩ :=
  ⟨upstream_error_translation.1 _ rfl,
   upstream_error_translation.2 _ _ _ _ "hi" rfl (by decide)
     (upstream_error_translation.1 _ rfl)⟩

/-- C4: on a 2xx upstream response, `callGroq` returns the first choice's
message content (default `""` when the chain `choices[0].message.content`
yields nothing) and the usage counters (default `0` when absent). -/
theorem callGroq_extraction
    (resp : UpstreamResponse) (hok : resp.ok = true)
    (cv pv tv : JValue)
    (hc : contentChain resp.json = .ok cv)
    (hp : usageChain resp.json "prompt_tokens" = .ok pv)
    (hq : usageChain resp.json "completion_tokens" = .ok tv) :
    ∃ r, callGroq resp = .ok r
      ∧ (cv.nullish = true → r.content = jstr "")
      ∧ (∀ s, cv = jstr s → r.content = jstr s)
      ∧ (pv = jundef → r.promptTokens = jnum 0)
      ∧ (∀ n, pv = jnum n → r.promptTokens = jnum n)
      ∧ (tv = jundef → r.completionTokens = jnum 0)
      ∧ (∀ n, tv = jnum n → r.completionTokens = jnum n) := by
  refine ⟨⟨jsOr cv (jstr ""), jsOr pv (jnum 0), jsOr tv (jnum 0)⟩,
    ?_, ?_, ?_, ?_, ?_, ?_, ?_⟩
  · simp [callGroq, hok, hc, hp, hq]
  · intro h
    cases cv <;> simp_all [JValue.nullish, JValue.jsOr, JValue.truthy]
  · intro s hcv; subst hcv
    by_cases hse : s = ""
    · subst hse; rfl
    · simp [JValue.jsOr, JValue.truthy, isEmpty_false_of_ne_empty hse]
  · intro h; subst h; rfl
  · intro n h; subst h
    by_cases hn : n = 0
    · subst hn; rfl
    · simp [JValue.jsOr, JValue.truthy, hn]
  · intro h; subst h; rfl
  · intro n h; subst h
    by_cases hn : n = 0
    · subst hn; rfl
    · simp [JValue.jsOr, JValue.truthy, hn]

/-- Witness for C4: a 2xx response whose choice list is empty and whose
usage object is missing, so every extracted field takes its default. -/
theorem callGroq_extraction_witness :
    ∃ r, callGroq ⟨true, 200, "", jobj [("choices", jarr [])]⟩ = .ok r
      ∧ (JValue.nullish jundef = true → r.content = jstr "")
      ∧ (∀ s, jundef = jstr s → r.content = jstr s)
      ∧ (jundef = jundef → r.promptTokens = jnum 0)
      ∧ (∀ n, jundef = jnum n → r.promptTokens = jnum n)
      ∧ (jundef = jundef → r.completionTokens = jnum 0)
      ∧ (∀ n, jundef = jnum n → r.completionTokens = jnum n) :=
  callGroq_extraction ⟨true, 200, "", jobj [("choices", jarr [])]⟩ rfl
    jundef jundef jundef rfl rfl rfl

/-- Conversion of an optional extra-instruction string into the JS value the
handler passes to `buildUserPrompt` (absent fields read as `undefined`). -/
def optJStr : Option String → JValue
  | none => jundef
  | some s => jstr s

/-- C5: for every transcript and every optional extra value (including the
empty string), the constructed message list is exactly the fixed system
persona message followed by one user message whose text is the transcript,
verbatim, followed by the extra text (empty when not supplied); no default
instruction is ever substituted. -/
theorem buildMessages_structure (t : String) (extra : Option String) :
    buildMessages (jstr t) (optJStr extra)
      = [⟨"system", SYSTEM_PROMPT⟩,
         ⟨"user", "Transcript:\n" ++ t
            ++ "\n\nAdditional instruction from user:\n" ++ extra.getD ""⟩] := by
  cases extra with
  | none =>
    simp [buildMessages, buildUserPrompt, optJStr, JValue.jsOr, JValue.truthy,
      JValue.templateStr]
  | some s =>
    by_cases hse : s = ""
    · subst hse
      simp [buildMessages, buildUserPrompt, optJStr, JValue.jsOr, JValue.truthy,
        JValue.templateStr]
    · simp [buildMessages, buildUserPrompt, optJStr, JValue.jsOr, JValue.truthy,
        isEmpty_false_of_ne_empty hse, JValue.templateStr]

/-- C6: for every request to `POST /api/send-email` whose `email` field is
missing, or whose `summary` field is missing, empty, or whitespace-only
after trimming, the handler responds HTTP 400 with an error field and the
email client is never invoked. -/
theorem sendEmail_validation (configured : Bool) (reqBody out : JValue)
    (h : (jsOr reqBody (jobj [])).getProp "email" = jundef
       ∨ (jsOr reqBody (jobj [])).getProp "summary" = jundef
       ∨ ∃ s, (jsOr reqBody (jobj [])).getProp "summary" = jstr s
            ∧ jsTrim s = "") :
    (sendEmailHandler configured reqBody out).status = 400
    ∧ (∃ msg, (sendEmailHandler configured reqBody out).body = errorBody msg)
    ∧ (sendEmailHandler configured reqBody out).upstreamCalled = false := by
  by_cases hem : ((jsOr reqBody (jobj [])).getProp "email").truthy = true
  · have heq : ∃ msg, sendEmailHandler configured reqBody out
        = ⟨400, errorBody msg, false⟩ := by
      rcases h with h | h | ⟨s, hs, ht⟩
      · rw [h] at hem; simp [JValue.truthy] at hem
      · refine ⟨"Summary content required", ?_⟩
        simp only [sendEmailHandler]
        rw [h, hem]
        simp [JValue.truthy]
      · refine ⟨"Summary content required", ?_⟩
        by_cases hse : s = ""
        · subst hse
          have hemp : ("" : String).isEmpty = true := rfl
          simp only [sendEmailHandler]
          rw [hs, hem]
          simp [JValue.truthy, hemp]
        · have hne : s.isEmpty = false := isEmpty_false_of_ne_empty hse
          have htr : (jsTrim s).data.isEmpty = true := by rw [ht]; rfl
          simp only [sendEmailHandler]
          rw [hs, hem]
          simp only [JValue.truthy, hne, htr]
          simp
    rcases heq with ⟨msg, heq⟩
    exact ⟨by rw [heq], ⟨msg, by rw [heq]⟩, by rw [heq]⟩
  · have heq : sendEmailHandler configured reqBody out
        = ⟨400, errorBody "Recipient email required", false⟩ := by
      simp only [sendEmailHandler]
      rw [Bool.not_eq_true] at hem
      rw [hem]
      simp
    exact ⟨by rw [heq], ⟨"Recipient email required", by rw [heq]⟩, by rw [heq]⟩

/-- Witness for C6: present email, empty summary. -/
theorem sendEmail_validation_witness :
    (sendEmailHandler true (jobj [("email", jstr "a@b.com"), ("summary", jstr "")])
      (jobj [])).status = 400
    ∧ (∃ msg, (sendEmailHandler true
        (jobj [("email", jstr "a@b.com"), ("summary", jstr "")])
        (jobj [])).body = errorBody msg)
    ∧ (sendEmailHandler true (jobj [("email", jstr "a@b.com"), ("summary", jstr "")])
        (jobj [])).upstreamCalled = false :=
  sendEmail_validation true _ _ (Or.inr (Or.inr ⟨"", rfl, rfl⟩))

/-- C7: with the email provider credential never configured, every validated
send-email request is answered HTTP 500 with the distinct message
`Email service not configured` (different from the generic failure body) and
the provider is never invoked. -/
theorem sendEmail_not_configured (reqBody out : JValue) (s : String)
    (he : ((jsOr reqBody (jobj [])).getProp "email").truthy = true)
    (hs : (jsOr reqBody (jobj [])).getProp "summary" = jstr s)
    (hb : jsTrim s ≠ "") :
    sendEmailHandler false reqBody out
      = ⟨500, errorBody "Email service not configured", false⟩
    ∧ errorBody "Email service not configured"
        ≠ errorBody "Failed to send email" := by
  constructor
  · have hse : s ≠ "" := fun h => hb (by rw [h]; rfl)
    have hne : s.isEmpty = false := isEmpty_false_of_ne_empty hse
    have htr : (jsTrim s).data.isEmpty = false := data_isEmpty_false_of_ne_empty hb
    simp only [sendEmailHandler]
    rw [he, hs]
    simp only [JValue.truthy, hne, htr]
    simp
  · simp [errorBody]

/-- Witness for C7: valid email and summary, provider unconfigured. -/
theorem sendEmail_not_configured_witness :
    sendEmailHandler false (jobj [("email", jstr "a@b.com"), ("summary", jstr "S")])
      (jobj [])
      = ⟨500, errorBody "Email service not configured", false⟩
    ∧ errorBody "Email service not configured"
        ≠ errorBody "Failed to send email" :=
  sendEmail_not_configured _ _ "S" (by decide) rfl (by decide)

/-- C8: when the provider call succeeds without a provider-reported error,
the handler responds HTTP 200 with `{ok: true, id: I}` where `I` is the
provider-assigned id (`out.data?.id`) when present and the literal `"sent"`
when the provider omits it. -/
theorem sendEmail_success (reqBody out : JValue) (s : String)
    (he : ((jsOr reqBody (jobj [])).getProp "email").truthy = true)
    (hs : (jsOr reqBody (jobj [])).getProp "summary" = jstr s)
    (hb : jsTrim s ≠ "")
    (hnn : out.nullish = false)
    (herr : (out.getProp "error").truthy = false) :
    sendEmailHandler true reqBody out
      = ⟨200, jobj [("ok", jbool true), ("id", jsOr (providerId out) (jstr "sent"))],
          true⟩
    ∧ (∀ i, i ≠ "" → providerId out = jstr i
        → jsOr (providerId out) (jstr "sent") = jstr i)
    ∧ (providerId out = jundef
        → jsOr (providerId out) (jstr "sent") = jstr "sent") := by
  refine ⟨?_, ?_, ?_⟩
  · have hse : s ≠ "" := fun h => hb (by rw [h]; rfl)
    have hne : s.isEmpty = false := isEmpty_false_of_ne_empty hse
    have htr : (jsTrim s).data.isEmpty = false := data_isEmpty_false_of_ne_empty hb
    simp only [sendEmailHandler, JValue.getMember]
    rw [he, hs]
    simp only [JValue.truthy, hne, htr, hnn]
    simp
    exact herr
  · intro i hi hp
    rw [hp]
    simp [JValue.jsOr, JValue.truthy, isEmpty_false_of_ne_empty hi]
  · intro hp
    rw [hp]
    rfl

/-- Witness for C8: provider returns `{data: {id: "msg_1"}}`. -/
theorem sendEmail_success_witness :
    sendEmailHandler true (jobj [("email", jstr "a@b.com"), ("summary", jstr "S")])
      (jobj [("data", jobj [("id", jstr "msg_1")])])
      = ⟨200, jobj [("ok", jbool true),
          ("id", jsOr (providerId (jobj [("data", jobj [("id", jstr "msg_1")])]))
            (jstr "sent"))], true⟩
    ∧ (∀ i, i ≠ ""
        → providerId (jobj [("data", jobj [("id", jstr "msg_1")])]) = jstr i
        → jsOr (providerId (jobj [("data", jobj [("id", jstr "msg_1")])]))
            (jstr "sent") = jstr i)
    ∧ (providerId (jobj [("data", jobj [("id", jstr "msg_1")])]) = jundef
        → jsOr (providerId (jobj [("data", jobj [("id", jstr "msg_1")])]))
            (jstr "sent") = jstr "sent") :=
  sendEmail_success _ _ "S" (by decide) rfl (by decide) rfl rfl

theorem limiterRunFrom_get (n : Nat) : ∀ (c k : Nat), k < n →
    (limiterRunFrom c n).get? k
      = some (if c + k < rateLimitMax then LimiterOutcome.pass else .reject429) := by
  induction n with
  | zero => intro c k hk; exact absurd hk (Nat.not_lt_zero k)
  | succ n ih =>
    intro c k hk
    cases k with
    | zero =>
      simp [limiterRunFrom, limiterStep, Nat.lt_iff_add_one_le]
    | succ k =>
      have hk2 : k < n := Nat.lt_of_succ_lt_succ hk
      have harith : c + 1 + k = c + (k + 1) := by omega
      have := ih (c + 1) k hk2
      rw [harith] at this
      simpa [limiterRunFrom, limiterStep] using this

/-- C9: within a single 60-second fixed window, the k-th request (0-based)
from one client key passes the limiter iff fewer than 20 requests preceded
it; from the 21st request on, the outcome is HTTP 429 and the route handler
is not reached. -/
theorem rateLimiter_fixed_window (n k : Nat) (hk : k < n) :
    (limiterRun n).get? k
      = some (if k < rateLimitMax then LimiterOutcome.pass else .reject429) := by
  have h := limiterRunFrom_get n 0 k hk
  simpa [limiterRun] using h

/-- Witness for C9: in a burst of 21 requests, the 1st passes and the 21st
is rejected with HTTP 429. -/
theorem rateLimiter_fixed_window_witness :
    (limiterRun 21).get? 0 = some LimiterOutcome.pass
    ∧ (limiterRun 21).get? 20 = some LimiterOutcome.reject429 := by
  constructor
  · have h := rateLimiter_fixed_window 21 0 (by decide)
    simpa [rateLimitMax] using h
  · have h := rateLimiter_fixed_window 21 20 (by decide)
    simpa [rateLimitMax] using h

/-- C10: a `transcript` field that is truthy but not a string is not
rejected with HTTP 400; instead `transcript.trim` throws, the handler's
catch block answers HTTP 500 `{error: "Failed to summarize"}`, the LLM
client is never invoked, and the handler still returns a response (the
process does not crash). -/
theorem summarize_nonstring_transcript (model : String) (reqBody : JValue)
    (upstream : UpstreamResponse)
    (ht : ((jsOr reqBody (jobj [])).getProp "transcript").truthy = true)
    (hns : ∀ s, (jsOr reqBody (jobj [])).getProp "transcript" ≠ jstr s) :
    summarizeHandler model reqBody upstream
      = ⟨500, errorBody "Failed to summarize", false⟩ := by
  simp only [summarizeHandler]
  rcases hv : (jsOr reqBody (jobj [])).getProp "transcript"
    with _ | _ | b | nn | s | xs | fs
  · rw [hv] at ht; simp [JValue.truthy] at ht
  · rw [hv] at ht; simp [JValue.truthy] at ht
  · rw [hv] at ht
    simp only [JValue.truthy] at ht
    simp [JValue.truthy, ht]
  · rw [hv] at ht
    simp only [JValue.truthy] at ht
    simp [JValue.truthy, ht]
  · exact absurd hv (hns s)
  · simp [JValue.truthy]
  · simp [JValue.truthy]

/-- Witness for C10: numeric transcript `5`. -/
theorem summarize_nonstring_transcript_witness :
    summarizeHandler "llama-3.1-8b-instant" (jobj [("transcript", jnum 5)])
      ⟨true, 200, "", jnull⟩
      = ⟨500, errorBody "Failed to summarize", false⟩ :=
  summarize_nonstring_transcript _ _ _ (by decide)
    (fun s h => by simp [JValue.getProp, JValue.jsOr, JValue.truthy,
      JValue.lookupField] at h)
